import Mathlib

/-!
Verification of the order assignment engine of the ride-sharing backend.

The engine source is the class OrderAssignmentService (orderAssignmentService.js,
embedded in RAILWAY-CRASH-FIX.md), the Order model (models/Order.js, embedded in
redis-railway.js) and the geo utilities (geoUtils.js, unnamed/part_006).

Modelling conventions:
- identifiers are strings; timestamps are rationals (milliseconds since epoch);
- the Redis client is a key/value list plus an outage schedule: the list sched
  records, per upcoming operation, whether that operation fails with a store
  error (the JS client rejects the promise when the store is unreachable);
  an empty schedule means the store is healthy;
- TTL arguments of setEx are recorded nowhere: key expiry is a real-time
  behaviour of the external store, outside the scope of the claims;
- mongoose saves validate enum fields; a failed validation rejects the save;
- socket emissions are recorded in an event list, setTimeout callbacks in a
  task list (delay plus the orderId passed to assignOrder).
-/

namespace RideSharing

/-- A geographic point with rational coordinates (engine side). -/
structure GeoPt where
  latitude : ℚ
  longitude : ℚ
deriving DecidableEq

/-- Store failure raised by the Redis client when the store is unreachable. -/
inductive StoreErr
  | storeUnavailable
deriving DecidableEq

/-- State of the Redis client: current key/value pairs and the outage schedule
(one Bool per upcoming operation; true means that operation fails). -/
structure RedisState where
  kv : List (String × String)
  sched : List Bool
deriving DecidableEq

/-- Lookup of a key in the key/value list (first binding wins). -/
def kvGet : List (String × String) → String → Option String
  | [], _ => none
  | p :: ps, k => if p.1 = k then some p.2 else kvGet ps k

/-- Delete a key. -/
def kvDel : List (String × String) → String → List (String × String)
  | [], _ => []
  | p :: ps, k => if p.1 = k then kvDel ps k else p :: kvDel ps k

/-- Set a key, replacing any previous binding. -/
def kvSet (kv : List (String × String)) (k v : String) : List (String × String) :=
  (k, v) :: kvDel kv k

/-- One step of the outage schedule: whether the next operation fails, and the
remaining schedule. -/
def RedisState.step (r : RedisState) : Bool × RedisState :=
  (r.sched.headD false, { r with sched := r.sched.tail })

/-- redisClient.get: returns the value of the key, or a store error. -/
def redisGet (r : RedisState) (k : String) : Except StoreErr (Option String) × RedisState :=
  let (fail, r') := r.step
  (if fail then .error .storeUnavailable else .ok (kvGet r'.kv k), r')

/-- redisClient.setEx: sets the key with a TTL (TTL not modelled), or fails. -/
def redisSetEx (r : RedisState) (k : String) (_ttlSeconds : ℚ) (v : String) :
    Except StoreErr Unit × RedisState :=
  let (fail, r') := r.step
  if fail then (.error .storeUnavailable, r')
  else (.ok (), { r' with kv := kvSet r'.kv k v })

/-- redisClient.del: deletes the key, or fails. -/
def redisDel (r : RedisState) (k : String) : Except StoreErr Unit × RedisState :=
  let (fail, r') := r.step
  if fail then (.error .storeUnavailable, r')
  else (.ok (), { r' with kv := kvDel r'.kv k })

/-- One entry of Order.assignmentAttempts (models/Order.js). -/
structure AttemptRec where
  driverId : String
  attemptedAt : ℚ
  response : String
  respondedAt : Option ℚ
deriving DecidableEq

/-- The timestamps subdocument of the Order schema. -/
structure OrderTimes where
  orderPlaced : ℚ
  accepted : Option ℚ
  pickupStarted : Option ℚ
  pickedUp : Option ℚ
  delivered : Option ℚ
  cancelled : Option ℚ
deriving DecidableEq

/-- The Order document (models/Order.js), restricted to the fields the
assignment engine reads or writes. -/
structure Order where
  orderId : String
  customer : String
  driver : Option String
  pickupLocation : GeoPt
  dropoffLocation : GeoPt
  status : String
  paymentStatus : String
  assignmentAttempts : List AttemptRec
  isLocked : Bool
  lockedBy : Option String
  lockExpiration : Option ℚ
  timestamps : OrderTimes
deriving DecidableEq

/-- The status enum of the Order schema (models/Order.js). Note that it does
not contain the value failed. -/
def validStatuses : List String :=
  ["pending", "accepted", "pickup_started", "picked_up", "in_transit", "delivered", "cancelled"]

/-- The response enum of the assignmentAttempts subdocument. -/
def validResponses : List String :=
  ["pending", "accepted", "declined", "timeout"]

/-- The paymentStatus enum of the Order schema. -/
def validPayments : List String :=
  ["pending", "paid", "refunded"]

/-- Mongoose enum validation of an Order document, run by save. -/
def Order.valid (o : Order) : Bool :=
  validStatuses.contains o.status
    && validPayments.contains o.paymentStatus
    && o.assignmentAttempts.all (fun a => validResponses.contains a.response)

/-- orderSchema.methods.updateStatus: set the new status and the matching
timestamp; on accepted also set the driver. The JS function takes only the
new status and an optional driver id; a third argument passed at one call
site is ignored. -/
def Order.updateStatus (o : Order) (newStatus : String) (driverId : Option String)
    (now : ℚ) : Order :=
  let o := { o with status := newStatus }
  if newStatus = "accepted" then
    { o with timestamps.accepted := some now, driver := driverId }
  else if newStatus = "pickup_started" then
    { o with timestamps.pickupStarted := some now }
  else if newStatus = "picked_up" then
    { o with timestamps.pickedUp := some now }
  else if newStatus = "delivered" then
    { o with timestamps.delivered := some now, paymentStatus := "paid" }
  else if newStatus = "cancelled" then
    { o with timestamps.cancelled := some now }
  else o

/-- orderSchema.methods.lockForDriver. -/
def Order.lockForDriver (o : Order) (driverId : String) (timeoutMinutes : ℚ)
    (now : ℚ) : Order :=
  { o with isLocked := true, lockedBy := some driverId,
           lockExpiration := some (now + timeoutMinutes * 60 * 1000) }

/-- orderSchema.methods.releaseLock. -/
def Order.releaseLock (o : Order) : Order :=
  { o with isLocked := false, lockedBy := none, lockExpiration := none }

/-- A driver candidate document (User with userType driver), restricted to the
fields the engine reads. -/
structure Driver where
  id : String
  name : String
  isActive : Bool
  isAvailable : Bool
  location : GeoPt
deriving DecidableEq

/-- Socket emissions of the engine, in emission order. -/
inductive Notice
  | newOrderOffer (driverId orderId : String)
  | orderAccepted (customerId orderId driverId : String)
  | orderAssignmentConfirmed (driverId orderId : String)
  | orderFailed (customerId orderId reason : String)
deriving DecidableEq

/-- A deferred setTimeout task: reassignment of the order after the delay. -/
structure Task where
  delayMs : ℚ
  orderId : String
deriving DecidableEq

/-- The world state threaded through the engine: the order collection, the
user collection (drivers), the Redis client, emitted notices, scheduled
tasks and the current clock. -/
structure St where
  orders : List Order
  users : List Driver
  redis : RedisState
  notices : List Notice
  tasks : List Task
  now : ℚ
deriving DecidableEq

/-- Redis get lifted to the world state. -/
def stGet (st : St) (k : String) : Except StoreErr (Option String) × St :=
  let (r, red) := redisGet st.redis k
  (r, { st with redis := red })

/-- Redis setEx lifted to the world state. -/
def stSetEx (st : St) (k : String) (ttlSeconds : ℚ) (v : String) :
    Except StoreErr Unit × St :=
  let (r, red) := redisSetEx st.redis k ttlSeconds v
  (r, { st with redis := red })

/-- Redis del lifted to the world state. -/
def stDel (st : St) (k : String) : Except StoreErr Unit × St :=
  let (r, red) := redisDel st.redis k
  (r, { st with redis := red })

/-- Record a socket emission. -/
def emit (st : St) (n : Notice) : St :=
  { st with notices := st.notices ++ [n] }

/-- Lookup of the first order with the given orderId. -/
def findOrderL : List Order → String → Option Order
  | [], _ => none
  | o :: os, oid => if o.orderId = oid then some o else findOrderL os oid

/-- Order.findOne on the orderId field. -/
def findOrder (st : St) (orderId : String) : Option Order :=
  findOrderL st.orders orderId

/-- Lookup of the first driver with the given id. -/
def findDriverL : List Driver → String → Option Driver
  | [], _ => none
  | d :: ds, i => if d.id = i then some d else findDriverL ds i

/-- User.findById on the driver collection. -/
def findDriver (st : St) (driverId : String) : Option Driver :=
  findDriverL st.users driverId

/-- Replacement of every order carrying the orderId of the saved document. -/
def replaceOrder : List Order → Order → List Order
  | [], _ => []
  | x :: xs, o => (if x.orderId = o.orderId then o else x) :: replaceOrder xs o

/-- Mongoose document save: enum validation, then replacement of the document
with the same orderId. A validation failure rejects the save and leaves the
collection unchanged. -/
def saveOrder (st : St) (o : Order) : Except Unit St :=
  if o.valid then .ok { st with orders := replaceOrder st.orders o }
  else .error ()

/-- Pointwise availability update of the driver with the given id. -/
def updateAvail : List Driver → String → Bool → List Driver
  | [], _, _ => []
  | d :: ds, i, b => (if d.id = i then { d with isAvailable := b } else d) :: updateAvail ds i b

/-- User.findByIdAndUpdate setting driverDetails.isAvailable; a no-op when the
driver does not exist. -/
def setDriverAvailability (st : St) (driverId : String) (b : Bool) : St :=
  { st with users := updateAvail st.users driverId b }

/-- JS template-literal interpolation of a nullable string: null prints as the
four characters null. -/
def jsShow : Option String → String
  | some s => s
  | none => "null"

/-- Errors thrown by the engine entry points, one constructor per distinct
throw site message of orderAssignmentService.js (plus the store failure). -/
inductive EngineErr
  | orderNotFound
  | orderNotPending
  | assignmentInProgress
  | noDriversAvailable
  | noDriverAccepted
  | invalidOrExpiredLock
  | storeUnavailable
  | saveFailed
deriving DecidableEq

/-- Result object of offerOrderToDriver. -/
structure OfferResult where
  success : Bool
  reason : Option String
  driverId : Option String
deriving DecidableEq

/-- The failure result produced by the catch-all of offerOrderToDriver. -/
def offerCaught : OfferResult :=
  { success := false, reason := some "Failed to offer order to driver", driverId := none }

/-- A driver together with the distanceToPickup field added by
findNearbyDrivers. -/
structure Candidate where
  driver : Driver
  distanceToPickup : ℚ
deriving DecidableEq

/-- The injected collaborators of the service: the calculateDistance function
imported from geoUtils (kept abstract on the engine side so the engine stays
executable; the real-number geo model is below). -/
structure Service where
  dist : GeoPt → GeoPt → ℚ

/-- Comparison used to model the ascending sort of findNearbyDrivers. -/
def candLE (a b : Candidate) : Prop :=
  a.distanceToPickup ≤ b.distanceToPickup

instance : DecidableRel candLE :=
  fun x y => inferInstanceAs (Decidable (x.distanceToPickup ≤ y.distanceToPickup))

instance : IsTotal Candidate candLE := ⟨fun x y => le_total x.distanceToPickup y.distanceToPickup⟩

instance : IsTrans Candidate candLE := ⟨fun _ _ _ => le_trans⟩

/-- findNearbyDrivers: the MongoDB geo query is an external spatial store.
Modelled from the spec: GeoIndex.FindAvailable returns the active, available
drivers within radiusKm of the point (section 4.1); the metric of the store is
modelled by the injected distance function. The source then maps each driver
to its distanceToPickup (via calculateDistance) and sorts ascending. -/
def findNearbyDrivers (sv : Service) (st : St) (pickup : GeoPt) (radiusKm : ℚ) :
    List Candidate :=
  let matched := st.users.filter
    (fun d => d.isActive && d.isAvailable && decide (sv.dist pickup d.location ≤ radiusKm))
  let withDist := matched.map (fun d => { driver := d, distanceToPickup := sv.dist pickup d.location : Candidate })
  List.insertionSort candLE withDist

/-- offerOrderToDriver: check both lock keys, take both locks with the shared
TTL, persist the lock fields and a pending attempt, notify the driver. Any
exception is caught and converted into the generic failure result. -/
def offerOrderToDriver (sv : Service) (st : St) (order : Order) (cand : Candidate) :
    OfferResult × St :=
  let _ := sv
  let driverLockKey := "driver_lock:" ++ cand.driver.id
  let orderLockKey := "order_lock:" ++ order.orderId
  match stGet st driverLockKey with
  | (.error _, st) => (offerCaught, st)
  | (.ok driverLock, st) =>
    if driverLock.isSome then
      ({ success := false, reason := some "Driver is busy with another order", driverId := none }, st)
    else
      match stGet st orderLockKey with
      | (.error _, st) => (offerCaught, st)
      | (.ok orderLock, st) =>
        if (match orderLock with | some v => v != cand.driver.id | none => false) then
          ({ success := false, reason := some "Order is locked by another driver", driverId := none }, st)
        else
          match stSetEx st driverLockKey 300 order.orderId with
          | (.error _, st) => (offerCaught, st)
          | (.ok _, st) =>
            match stSetEx st orderLockKey 300 cand.driver.id with
            | (.error _, st) => (offerCaught, st)
            | (.ok _, st) =>
              let o1 := order.lockForDriver cand.driver.id (300 / 60) st.now
              match saveOrder st o1 with
              | .error _ => (offerCaught, st)
              | .ok st =>
                let o2 := { o1 with assignmentAttempts :=
                  o1.assignmentAttempts ++ [{ driverId := cand.driver.id, attemptedAt := st.now,
                                              response := "pending", respondedAt := none }] }
                match saveOrder st o2 with
                | .error _ => (offerCaught, st)
                | .ok st =>
                  let st := emit st (.newOrderOffer cand.driver.id order.orderId)
                  ({ success := true, reason := none, driverId := some cand.driver.id }, st)

/-- The sequential offer loop of assignOrder: one candidate at a time,
stopping at the first successful offer. -/
def tryCandidates (sv : Service) (st : St) (order : Order) :
    List Candidate → Option OfferResult × St
  | [] => (none, st)
  | c :: cs =>
    let (r, st') := offerOrderToDriver sv st order c
    if r.success then (some r, st') else tryCandidates sv st' order cs

/-- Error recovery shared by the failure paths of assignOrder: the source
deletes the assignment lock key, throws, and the surrounding catch deletes the
key once more before rethrowing; a store failure in either delete surfaces as
the store error instead. -/
def delThenRaise (st : St) (key : String) (e : EngineErr) :
    Except EngineErr OfferResult × St :=
  match stDel st key with
  | (.error _, st) =>
    match stDel st key with
    | (_, st) => (.error .storeUnavailable, st)
  | (.ok _, st) =>
    match stDel st key with
    | (.error _, st) => (.error .storeUnavailable, st)
    | (.ok _, st) => (.error e, st)

/-- assignOrder: load and check the order, reject a duplicate in-flight call
via the order_assignment key, take that key, query nearby drivers (default
radius 5), and offer to the top 5 nearest sequentially, stopping at the first
successfully placed offer. -/
def assignOrder (sv : Service) (st : St) (orderId : String) :
    Except EngineErr OfferResult × St :=
  match findOrder st orderId with
  | none => (.error .orderNotFound, st)
  | some order =>
    if order.status != "pending" then (.error .orderNotPending, st)
    else
      let lockKey := "order_assignment:" ++ orderId
      match stGet st lockKey with
      | (.error _, st) => (.error .storeUnavailable, st)
      | (.ok isLocked, st) =>
        if isLocked.isSome then (.error .assignmentInProgress, st)
        else
          match stSetEx st lockKey 300 "locked" with
          | (.error _, st) => (.error .storeUnavailable, st)
          | (.ok _, st) =>
            let nearby := findNearbyDrivers sv st order.pickupLocation 5
            if nearby.isEmpty then
              delThenRaise st lockKey .noDriversAvailable
            else
              match tryCandidates sv st order (nearby.take 5) with
              | (some r, st) =>
                match stDel st lockKey with
                | (.ok _, st) => (.ok r, st)
                | (.error _, st) =>
                  match stDel st lockKey with
                  | (_, st) => (.error .storeUnavailable, st)
              | (none, st) => delThenRaise st lockKey .noDriverAccepted

/-- markOrderAsFailed: set status failed, release the lock, persist, notify
the customer. Every exception is caught and only logged; the third argument
of the updateStatus call (the reason) is dropped by updateStatus itself. -/
def markOrderAsFailed (st : St) (orderId reason : String) : St :=
  match findOrder st orderId with
  | none => st
  | some order =>
    let o := (order.updateStatus "failed" none st.now).releaseLock
    match saveOrder st o with
    | .error _ => st
    | .ok st => emit st (.orderFailed order.customer orderId reason)

/-- Result object of handleDriverResponse. -/
structure RespResult where
  success : Bool
  message : String
  orderId : Option String
deriving DecidableEq

/-- The findIndex plus in-place update of handleDriverResponse: mark the first
attempt of this driver still pending as accepted or declined with the response
timestamp; leave the list unchanged when no such attempt exists. -/
def updatePendingAttempt (driverId response : String) (now : ℚ) :
    List AttemptRec → List AttemptRec
  | [] => []
  | a :: as =>
    if a.driverId == driverId && a.response == "pending" then
      { a with response := if response == "accept" then "accepted" else "declined",
               respondedAt := some now } :: as
    else
      a :: updatePendingAttempt driverId response now as

/-- handleDriverResponse: verify both lock keys, mark the pending attempt,
then finalize an accept or recover from a decline (retry below 10 resolved
attempts, otherwise markOrderAsFailed). -/
def handleDriverResponse (sv : Service) (st : St) (orderId driverId response : String) :
    Except EngineErr RespResult × St :=
  let _ := sv
  match findOrder st orderId with
  | none => (.error .orderNotFound, st)
  | some order =>
    let driverLockKey := "driver_lock:" ++ driverId
    let orderLockKey := "order_lock:" ++ orderId
    match stGet st driverLockKey with
    | (.error _, st) => (.error .storeUnavailable, st)
    | (.ok driverLock, st) =>
      match stGet st orderLockKey with
      | (.error _, st) => (.error .storeUnavailable, st)
      | (.ok orderLock, st) =>
        if driverLock != some orderId || orderLock != some driverId then
          (.error .invalidOrExpiredLock, st)
        else
          let atts := updatePendingAttempt driverId response st.now order.assignmentAttempts
          let order := { order with assignmentAttempts := atts }
          if response == "accept" then
            let order := (order.updateStatus "accepted" (some driverId) st.now).releaseLock
            match saveOrder st order with
            | .error _ => (.error .saveFailed, st)
            | .ok st =>
              let st := setDriverAvailability st driverId false
              match stDel st driverLockKey with
              | (.error _, st) => (.error .storeUnavailable, st)
              | (.ok _, st) =>
                match stDel st orderLockKey with
                | (.error _, st) => (.error .storeUnavailable, st)
                | (.ok _, st) =>
                  let st := emit st (.orderAccepted order.customer orderId driverId)
                  let st := emit st (.orderAssignmentConfirmed driverId orderId)
                  (.ok { success := true, message := "Order accepted successfully",
                         orderId := some orderId }, st)
          else
            let order := order.releaseLock
            match saveOrder st order with
            | .error _ => (.error .saveFailed, st)
            | .ok st =>
              match stDel st driverLockKey with
              | (.error _, st) => (.error .storeUnavailable, st)
              | (.ok _, st) =>
                match stDel st orderLockKey with
                | (.error _, st) => (.error .storeUnavailable, st)
                | (.ok _, st) =>
                  let currentAttempts :=
                    (order.assignmentAttempts.filter (fun a => a.response != "pending")).length
                  if currentAttempts < 10 then
                    let st := { st with tasks := st.tasks ++ [{ delayMs := 2000, orderId := orderId }] }
                    (.ok { success := true, message := "Order declined, trying next driver",
                           orderId := none }, st)
                  else
                    let st := markOrderAsFailed st orderId "Maximum assignment attempts reached"
                    (.ok { success := true, message := "Order declined, trying next driver",
                           orderId := none }, st)

/-- The Mongo query condition of cleanupExpiredLocks: isLocked true and
lockExpiration strictly in the past (a missing field never matches). -/
def Order.isExpiredLock (o : Order) (now : ℚ) : Bool :=
  o.isLocked && (match o.lockExpiration with | some e => decide (e < now) | none => false)

/-- Mark the last attempt as timeout when it is still pending (the in-place
mutation of cleanupExpiredLocks). -/
def markTimeoutLast (now : ℚ) (attempts : List AttemptRec) : List AttemptRec :=
  match attempts.getLast? with
  | some la =>
    if la.response == "pending" then
      attempts.dropLast ++ [{ la with response := "timeout", respondedAt := some now }]
    else attempts
  | none => attempts

/-- The per-order body of cleanupExpiredLocks, aborting the whole batch on the
first exception (the catch is outside the for loop). Note the source reads
order.lockedBy only after releaseLock has set it to null, so the driver lock
key it deletes is the literal key driver_lock:null. -/
def cleanupLoop (st : St) : List Order → St
  | [] => st
  | o :: rest =>
    let o1 := o.releaseLock
    let o2 := { o1 with assignmentAttempts := markTimeoutLast st.now o1.assignmentAttempts }
    match saveOrder st o2 with
    | .error _ => st
    | .ok st =>
      match stDel st ("driver_lock:" ++ jsShow o2.lockedBy) with
      | (.error _, st) => st
      | (.ok _, st) =>
        match stDel st ("order_lock:" ++ o.orderId) with
        | (.error _, st) => st
        | (.ok _, st) => cleanupLoop st rest

/-- cleanupExpiredLocks: process every order whose lock has expired. -/
def cleanupExpiredLocks (st : St) : St :=
  cleanupLoop st (st.orders.filter (fun o => o.isExpiredLock st.now))

/-- The averageSpeeds object literal of calculateEstimatedDuration, as a
partial map from vehicle type to speed in km/h. -/
def averageSpeeds (vehicleType : String) : Option ℚ :=
  if vehicleType = "bike" then some 25
  else if vehicleType = "car" then some 30
  else if vehicleType = "auto" then some 20
  else none

/-- Math.round over exact rationals: round half toward positive infinity. -/
def jsRound (q : ℚ) : ℤ :=
  ⌊q + 1 / 2⌋

/-- calculateEstimatedDuration (geoUtils.js): distance over speed in minutes,
inflated by the 20 percent buffer and rounded; an unknown vehicle type falls
back to the car speed through the JS or-default. -/
def calculateEstimatedDuration (distance : ℚ) (vehicleType : String) : ℤ :=
  let speed := (averageSpeeds vehicleType).getD 30
  let duration := distance / speed * 60
  jsRound (duration * (6 / 5))

/-- A geographic point with real coordinates (distance calculator side). -/
structure GeoPoint where
  latitude : ℝ
  longitude : ℝ

/-- Valid coordinates in the sense of the spec: latitude within -90..90 and
longitude within -180..180. -/
def GeoPoint.validCoord (p : GeoPoint) : Prop :=
  -90 ≤ p.latitude ∧ p.latitude ≤ 90 ∧ -180 ≤ p.longitude ∧ p.longitude ≤ 180

/-- Degrees to radians. -/
noncomputable def toRad (d : ℝ) : ℝ :=
  d * (Real.pi / 180)

/-- Modelled from the spec: the great-circle (haversine) distance in meters
computed by the external geolib.getDistance, whose source is not part of the
repository. Section 4.2 of the spec prescribes the haversine great-circle
formula. -/
noncomputable def haversineMeters (p q : GeoPoint) : ℝ :=
  let phi1 := toRad p.latitude
  let phi2 := toRad q.latitude
  let dphi := toRad (q.latitude - p.latitude)
  let dlam := toRad (q.longitude - p.longitude)
  let h := Real.sin (dphi / 2) ^ 2 + Real.cos phi1 * Real.cos phi2 * Real.sin (dlam / 2) ^ 2
  2 * 6371000 * Real.arcsin (Real.sqrt h)

/-- Modelled from the spec: geolib.getDistance raises an error on a malformed
coordinate object (modelled as a missing point) and otherwise returns the
great-circle distance in meters. -/
noncomputable def getDistance : Option GeoPoint → Option GeoPoint → Except Unit ℝ
  | some p, some q => .ok (haversineMeters p q)
  | _, _ => .error ()

/-- Math.round over the reals: round half toward positive infinity. -/
noncomputable def jsRoundR (x : ℝ) : ℤ :=
  ⌊x + 1 / 2⌋

/-- parseFloat of toFixed(2): rounding to two decimal places. -/
noncomputable def round2 (x : ℝ) : ℝ :=
  (jsRoundR (x * 100) : ℝ) / 100

/-- calculateDistance (geoUtils.js): delegate to getDistance, convert meters
to kilometers rounded to two decimals, and turn any error of the underlying
computation into the result 0. -/
noncomputable def calculateDistance (p q : Option GeoPoint) : ℝ :=
  match getDistance p q with
  | .ok meters => round2 (meters / 1000)
  | .error _ => 0

/-- Decidable equality for Except results, so that engine outcomes on
concrete states can be settled by decide. -/
def exceptDecEq {ε α : Type} [DecidableEq ε] [DecidableEq α] : DecidableEq (Except ε α)
  | .error e, .error f =>
    if h : e = f then .isTrue (by rw [h]) else .isFalse (by simp [h])
  | .error _, .ok _ => .isFalse (fun h => Except.noConfusion h)
  | .ok _, .error _ => .isFalse (fun h => Except.noConfusion h)
  | .ok a, .ok b =>
    if h : a = b then .isTrue (by rw [h]) else .isFalse (by simp [h])

instance {ε α : Type} [DecidableEq ε] [DecidableEq α] : DecidableEq (Except ε α) :=
  exceptDecEq

/-- A service instance with a trivial injected metric, for concrete runs. -/
def sv0 : Service := ⟨fun _ _ => 0⟩

/-- The origin point. -/
def pt0 : GeoPt := ⟨0, 0⟩

/-- A fresh timestamps subdocument. -/
def baseTimes : OrderTimes := ⟨0, none, none, none, none, none⟩

/-- A freshly created pending order named O1 with no attempts and no lock. -/
def order2 : Order :=
  { orderId := "O1", customer := "C1", driver := none, pickupLocation := pt0,
    dropoffLocation := pt0, status := "pending", paymentStatus := "pending",
    assignmentAttempts := [], isLocked := false, lockedBy := none,
    lockExpiration := none, timestamps := baseTimes }

/-- A state in which order O1 has an outstanding offer to D1: the key
order_lock:O1 is set, while the transient order_assignment:O1 marker of a
running assignOrder call is not. -/
def st2 : St :=
  { orders := [order2], users := [], redis := ⟨[("order_lock:O1", "D1")], []⟩,
    notices := [], tasks := [], now := 1000 }

/-- An available driver D1. -/
def drv1 : Driver := ⟨"D1", "Alice", true, true, pt0⟩

/-- An available driver D2. -/
def drv2 : Driver := ⟨"D2", "Bob", true, true, pt0⟩

/-- A state with two available drivers and a store outage hitting exactly the
third Redis operation, which is the driver lock read of the first offer made
by assignOrder (operations one and two are the duplicate check read and the
marker write of assignOrder itself). -/
def st5 : St :=
  { orders := [order2], users := [drv1, drv2], redis := ⟨[], [false, false, true]⟩,
    notices := [], tasks := [], now := 1000 }

/-- An order that already holds nine resolved attempts plus a pending attempt
by driver D10, under a consistent lock pair. -/
def order3 : Order :=
  { order2 with
    assignmentAttempts := List.replicate 9 ⟨"D1", 0, "declined", some 0⟩ ++ [⟨"D10", 0, "pending", none⟩]
    isLocked := true
    lockedBy := some "D10"
    lockExpiration := some 500 }

/-- The state in which D10 is about to submit the tenth resolved response. -/
def st3 : St :=
  { orders := [order3], users := [],
    redis := ⟨[("driver_lock:D10", "O1"), ("order_lock:O1", "D10")], []⟩,
    notices := [], tasks := [], now := 1000 }

/-- An order O4 whose lock by D1 expired at time 100, with the attempt still
pending. -/
def order4 : Order :=
  { order2 with
    orderId := "O4"
    assignmentAttempts := [⟨"D1", 0, "pending", none⟩]
    isLocked := true
    lockedBy := some "D1"
    lockExpiration := some 100 }

/-- The state swept by cleanupExpiredLocks: now is past the lock expiry and
both lock keys are still set. -/
def st4 : St :=
  { orders := [order4], users := [],
    redis := ⟨[("driver_lock:D1", "O4"), ("order_lock:O4", "D1")], []⟩,
    notices := [], tasks := [], now := 200 }

/-- An order O6 with a consistent lock pair for D1 but no attempt record at
all. -/
def order6 : Order := { order2 with orderId := "O6" }

/-- The state for a response that has no matching pending attempt. -/
def st6 : St :=
  { orders := [order6], users := [],
    redis := ⟨[("driver_lock:D1", "O6"), ("order_lock:O6", "D1")], []⟩,
    notices := [], tasks := [], now := 300 }

/-- An order O7 with a consistent lock pair and one pending attempt for D1. -/
def order7 : Order :=
  { order2 with
    orderId := "O7"
    assignmentAttempts := [⟨"D1", 50, "pending", none⟩]
    isLocked := true
    lockedBy := some "D1"
    lockExpiration := some 5000 }

/-- The state for a clean accept by D1 on order O7. -/
def st7 : St :=
  { orders := [order7], users := [drv1],
    redis := ⟨[("driver_lock:D1", "O7"), ("order_lock:O7", "D1")], []⟩,
    notices := [], tasks := [], now := 400 }

/-- Specification-side predicate: both per-candidate lock checks performed by
offerOrderToDriver pass in the given state, so an offer started there is
placed rather than skipped. -/
def offerWouldSucceed (st : St) (o : Order) (c : Candidate) : Bool :=
  (kvGet st.redis.kv ("driver_lock:" ++ c.driver.id)).isNone &&
  (match kvGet st.redis.kv ("order_lock:" ++ o.orderId) with
   | some v => v == c.driver.id
   | none => true)

/-- The state exactly after assignOrder has written its transient in-progress
marker key. -/
def withMarker (st : St) (orderId : String) : St :=
  { st with redis := { st.redis with kv := kvSet st.redis.kv ("order_assignment:" ++ orderId) "locked" } }

/-- A healthy state with one pending order and one available driver, for the
witness of the candidate-selection theorem. -/
def st8 : St :=
  { orders := [order2], users := [drv1], redis := ⟨[], []⟩,
    notices := [], tasks := [], now := 1000 }

/-- A state in which the transient order_assignment marker of a running
assignOrder call is present. -/
def st9 : St :=
  { orders := [order2], users := [], redis := ⟨[("order_assignment:O1", "locked")], []⟩,
    notices := [], tasks := [], now := 1000 }

/-- A state whose very next store operation fails. -/
def st10 : St :=
  { orders := [order2], users := [], redis := ⟨[], [true]⟩,
    notices := [], tasks := [], now := 0 }

/-- Driver D1 as a candidate at distance zero. -/
def cand1 : Candidate := ⟨drv1, 0⟩

/-- The average speed per vehicle class as the spec words it: bike 25, car 30,
auto 20, any unknown class the speed of car. -/
def specAverageSpeed (c : String) : ℚ :=
  if c = "bike" then 25 else if c = "car" then 30 else if c = "auto" then 20 else 30

/-- C8: for every distance d at least 0 and vehicle class c, the estimated
duration equals the rounding of d over the class average speed times 60
minutes, inflated by the fixed 20 percent buffer, with speeds bike 25, car 30,
auto 20 and the car speed for any unknown class. -/
theorem estimatedDurationFormula (d : ℚ) (c : String) (_hd : 0 ≤ d) :
    calculateEstimatedDuration d c = ⌊d / specAverageSpeed c * 60 * (6 / 5) + 1 / 2⌋ := by
  unfold calculateEstimatedDuration averageSpeeds jsRound specAverageSpeed
  split_ifs <;> rfl

/-- Witness for estimatedDurationFormula at distance 10 and class bike. -/
theorem estimatedDurationFormula_witness :
    0 ≤ (10 : ℚ) ∧
      calculateEstimatedDuration 10 "bike" = ⌊(10 : ℚ) / specAverageSpeed "bike" * 60 * (6 / 5) + 1 / 2⌋ :=
  ⟨by norm_num, estimatedDurationFormula 10 "bike" (by norm_num)⟩

/-- C2 counterexample: a state in which the key order_lock:O1 is present in
the lock store (an offer to D1 is outstanding) while no assignOrder call is
executing; assignOrder does not fail with the in-progress error but proceeds
past the duplicate check and fails with the no-drivers error. -/
theorem assignWithOrderLockNotInProgress :
    kvGet st2.redis.kv "order_lock:O1" = some "D1" ∧
    kvGet st2.redis.kv "order_assignment:O1" = none ∧
    (assignOrder sv0 st2 "O1").1 = .error .noDriversAvailable ∧
    (assignOrder sv0 st2 "O1").1 ≠ .error .assignmentInProgress := by
  decide

/-- C3 evidence: the status enum of the Order schema does not contain failed,
so when the tenth resolved response arrives the markOrderAsFailed save is
rejected by validation: handleDriverResponse still reports success, but the
order stays in status pending, no failure notice reaches the customer, and no
retry task is scheduled. -/
theorem maxRetriesFailedStatusRejected :
    validStatuses.contains "failed" = false ∧
    (handleDriverResponse sv0 st3 "O1" "D10" "decline").1 =
      .ok ⟨true, "Order declined, trying next driver", none⟩ ∧
    (findOrder (handleDriverResponse sv0 st3 "O1" "D10" "decline").2 "O1").map Order.status =
      some "pending" ∧
    (handleDriverResponse sv0 st3 "O1" "D10" "decline").2.notices = [] ∧
    (handleDriverResponse sv0 st3 "O1" "D10" "decline").2.tasks = [] := by
  decide

/-- C4 evidence: sweeping the expired lock of order O4 marks the pending
attempt as timeout and clears the persisted lock fields, but deletes only the
order lock key: the driver lock key driver_lock:D1 survives (the source reads
lockedBy after nulling it, so it deletes the literal key driver_lock:null),
and no retry task is scheduled nor any failure transition taken. -/
theorem expiredSweepOrphansDriverLock :
    kvGet (cleanupExpiredLocks st4).redis.kv "driver_lock:D1" = some "O4" ∧
    kvGet (cleanupExpiredLocks st4).redis.kv "order_lock:O4" = none ∧
    findOrder (cleanupExpiredLocks st4) "O4" =
      some { order4 with
             isLocked := false
             lockedBy := none
             lockExpiration := none
             assignmentAttempts := [⟨"D1", 0, "timeout", some 200⟩] } ∧
    order4.status = "pending" ∧
    (cleanupExpiredLocks st4).tasks = [] ∧
    (cleanupExpiredLocks st4).notices = [] := by
  decide

/-- C5 counterexample: the store outage hits the driver lock read of the
offer to the nearest driver D1; the failure is converted into a per-candidate
failure result, the loop advances, and assignOrder returns success for D2
without ever surfacing the store error. -/
theorem storeFailureMaskedInOfferLoop :
    st5.redis.sched = [false, false, true] ∧
    (assignOrder sv0 st5 "O1").1 = .ok ⟨true, none, some "D2"⟩ ∧
    (assignOrder sv0 st5 "O1").2.notices = [.newOrderOffer "D2" "O1"] := by
  decide

/-- C6 counterexample: order O6 has a consistent lock pair for D1 but no
attempt record at all; handleDriverResponse does not fail with a no-matching-
attempt error: it reports success and transitions the order to accepted. -/
theorem missingAttemptStillProcessed :
    order6.assignmentAttempts = [] ∧
    (handleDriverResponse sv0 st6 "O6" "D1" "accept").1 =
      .ok ⟨true, "Order accepted successfully", some "O6"⟩ ∧
    (findOrder (handleDriverResponse sv0 st6 "O6" "D1" "accept").2 "O6").map Order.status =
      some "accepted" := by
  decide

theorem stGet_healthy (ords : List Order) (us : List Driver) (kv : List (String × String))
    (nt : List Notice) (tk : List Task) (n : ℚ) (k : String) :
    stGet ⟨ords, us, ⟨kv, []⟩, nt, tk, n⟩ k =
      (.ok (kvGet kv k), ⟨ords, us, ⟨kv, []⟩, nt, tk, n⟩) := rfl

theorem stSetEx_healthy (ords : List Order) (us : List Driver) (kv : List (String × String))
    (nt : List Notice) (tk : List Task) (n : ℚ) (k : String) (ttl : ℚ) (v : String) :
    stSetEx ⟨ords, us, ⟨kv, []⟩, nt, tk, n⟩ k ttl v =
      (.ok (), ⟨ords, us, ⟨kvSet kv k v, []⟩, nt, tk, n⟩) := rfl

theorem stDel_healthy (ords : List Order) (us : List Driver) (kv : List (String × String))
    (nt : List Notice) (tk : List Task) (n : ℚ) (k : String) :
    stDel ⟨ords, us, ⟨kv, []⟩, nt, tk, n⟩ k =
      (.ok (), ⟨ords, us, ⟨kvDel kv k, []⟩, nt, tk, n⟩) := rfl

theorem kvGet_kvDel_self (kv : List (String × String)) (k : String) :
    kvGet (kvDel kv k) k = none := by
  induction kv with
  | nil => rfl
  | cons p ps ih =>
    by_cases h : p.1 = k
    · simpa [kvDel, h] using ih
    · simpa [kvDel, kvGet, h] using ih

theorem kvGet_kvDel_of_none (kv : List (String × String)) (k k' : String)
    (h : kvGet kv k = none) : kvGet (kvDel kv k') k = none := by
  induction kv with
  | nil => rfl
  | cons p ps ih =>
    by_cases hp : p.1 = k
    · simp [kvGet, hp] at h
    · have htail : kvGet ps k = none := by simpa [kvGet, hp] using h
      by_cases hq : p.1 = k'
      · simpa [kvDel, hq] using ih htail
      · simpa [kvDel, kvGet, hp, hq] using ih htail

theorem kvGet_kvSet_self (kv : List (String × String)) (k v : String) :
    kvGet (kvSet kv k v) k = some v := by
  simp [kvGet, kvSet]

theorem orderId_of_findOrderL (l : List Order) (oid : String) (o : Order)
    (h : findOrderL l oid = some o) : o.orderId = oid := by
  induction l with
  | nil => simp [findOrderL] at h
  | cons a as ih =>
    by_cases ha : a.orderId = oid
    · rw [findOrderL, if_pos ha] at h
      cases h
      exact ha
    · rw [findOrderL, if_neg ha] at h
      exact ih h

theorem driverId_of_findDriverL (l : List Driver) (d : String) (drv : Driver)
    (h : findDriverL l d = some drv) : drv.id = d := by
  induction l with
  | nil => simp [findDriverL] at h
  | cons a as ih =>
    by_cases ha : a.id = d
    · rw [findDriverL, if_pos ha] at h
      cases h
      exact ha
    · rw [findDriverL, if_neg ha] at h
      exact ih h

theorem findOrderL_replace (l : List Order) (oid : String) (o o' : Order)
    (hf : findOrderL l oid = some o) (hid : o'.orderId = oid) :
    findOrderL (replaceOrder l o') oid = some o' := by
  induction l with
  | nil => simp [findOrderL] at hf
  | cons a as ih =>
    by_cases ha : a.orderId = oid
    · have hb : a.orderId = o'.orderId := by rw [hid, ha]
      simp [replaceOrder, hb, findOrderL, hid]
    · have hb : ¬ a.orderId = o'.orderId := by rw [hid]; exact ha
      rw [findOrderL, if_neg ha] at hf
      simp [replaceOrder, hb, findOrderL, ha, ih hf]

theorem findDriverL_updateAvail (l : List Driver) (d : String) (drv : Driver) (b : Bool)
    (hf : findDriverL l d = some drv) :
    findDriverL (updateAvail l d b) d = some { drv with isAvailable := b } := by
  induction l with
  | nil => simp [findDriverL] at hf
  | cons a as ih =>
    by_cases ha : a.id = d
    · rw [findDriverL, if_pos ha] at hf
      cases hf
      simp [updateAvail, ha, findDriverL]
    · rw [findDriverL, if_neg ha] at hf
      simp [updateAvail, ha, findDriverL, ih hf]

theorem updatePendingAttempt_of_none (d resp : String) (now : ℚ) (atts : List AttemptRec)
    (h : ∀ a ∈ atts, ¬(a.driverId = d ∧ a.response = "pending")) :
    updatePendingAttempt d resp now atts = atts := by
  induction atts with
  | nil => rfl
  | cons a as ih =>
    have hhead : ¬(a.driverId = d ∧ a.response = "pending") := h a (by simp)
    have hc : ¬ ((a.driverId == d && a.response == "pending") = true) := by
      simp only [Bool.and_eq_true, beq_iff_eq]
      exact hhead
    rw [updatePendingAttempt, if_neg hc, ih (fun b hb => h b (by simp [hb]))]

theorem updatePendingAttempt_get (d resp : String) (now : ℚ) (atts : List AttemptRec)
    (h : ∃ a ∈ atts, a.driverId = d ∧ a.response = "pending") :
    ∃ i a, atts.get? i = some a ∧ a.driverId = d ∧ a.response = "pending" ∧
      (updatePendingAttempt d resp now atts).get? i =
        some { a with
               response := if resp == "accept" then "accepted" else "declined",
               respondedAt := some now } := by
  induction atts with
  | nil => simp at h
  | cons a as ih =>
    by_cases hc : (a.driverId == d && a.response == "pending") = true
    · rw [Bool.and_eq_true, beq_iff_eq, beq_iff_eq] at hc
      refine ⟨0, a, rfl, hc.1, hc.2, ?_⟩
      rw [updatePendingAttempt, if_pos (by simp [hc.1, hc.2])]
      rfl
    · have h' : ∃ b ∈ as, b.driverId = d ∧ b.response = "pending" := by
        rcases h with ⟨b, hb, hprop⟩
        rcases List.mem_cons.mp hb with rfl | hbtail
        · exact absurd (by simp [hprop.1, hprop.2]) hc
        · exact ⟨b, hbtail, hprop⟩
      rcases ih h' with ⟨i, b, hget, h1, h2, hupd⟩
      refine ⟨i + 1, b, by simpa using hget, h1, h2, ?_⟩
      rw [updatePendingAttempt, if_neg hc]
      simpa using hupd

theorem updatePendingAttempt_respValid (d resp : String) (now : ℚ) (atts : List AttemptRec)
    (h : atts.all (fun a => validResponses.contains a.response) = true) :
    (updatePendingAttempt d resp now atts).all (fun a => validResponses.contains a.response) = true := by
  induction atts with
  | nil => rfl
  | cons a as ih =>
    rw [List.all_cons, Bool.and_eq_true] at h
    by_cases hc : (a.driverId == d && a.response == "pending") = true
    · rw [updatePendingAttempt, if_pos hc, List.all_cons, Bool.and_eq_true]
      refine ⟨?_, h.2⟩
      cases hrb : (resp == "accept") <;> simp [hrb] <;> decide
    · rw [updatePendingAttempt, if_neg hc, List.all_cons, Bool.and_eq_true]
      exact ⟨h.1, ih h.2⟩


/-- C1: for an order whose two lock keys are consistent and which has a pending
attempt for the responding driver, HandleResponse on accept returns success,
transitions the order to accepted with the driver assigned, clears and
persists the lock fields, marks the pending attempt accepted with a response
timestamp, sets the driver unavailable, and deletes both lock keys. -/
theorem acceptResponseFinalizes (sv : Service) (st : St) (oid d : String) (o : Order) (drv : Driver)
    (hsched : st.redis.sched = [])
    (hfind : findOrder st oid = some o)
    (hdl : kvGet st.redis.kv ("driver_lock:" ++ d) = some oid)
    (hol : kvGet st.redis.kv ("order_lock:" ++ oid) = some d)
    (hpend : ∃ a ∈ o.assignmentAttempts, a.driverId = d ∧ a.response = "pending")
    (hvalid : o.valid = true)
    (hdrv : findDriver st d = some drv) :
    (handleDriverResponse sv st oid d "accept").1 =
      .ok ⟨true, "Order accepted successfully", some oid⟩ ∧
    ∃ o', findOrder (handleDriverResponse sv st oid d "accept").2 oid = some o' ∧
      o'.status = "accepted" ∧ o'.driver = some d ∧
      o'.isLocked = false ∧ o'.lockedBy = none ∧ o'.lockExpiration = none ∧
      (∃ i a, o.assignmentAttempts.get? i = some a ∧ a.driverId = d ∧ a.response = "pending" ∧
        o'.assignmentAttempts.get? i =
          some { a with response := "accepted", respondedAt := some st.now }) ∧
      findDriver (handleDriverResponse sv st oid d "accept").2 d =
        some { drv with isAvailable := false } ∧
      kvGet (handleDriverResponse sv st oid d "accept").2.redis.kv ("driver_lock:" ++ d) = none ∧
      kvGet (handleDriverResponse sv st oid d "accept").2.redis.kv ("order_lock:" ++ oid) = none := by
  obtain ⟨ords, us, ⟨kv, sched⟩, nt, tk, n⟩ := st
  dsimp only at hsched hfind hdl hol hdrv ⊢
  subst hsched
  simp only [handleDriverResponse, hfind, stGet_healthy, hdl, hol]
  rw [if_neg (by simp)]
  rw [if_pos (by decide)]
  have hv1 := hvalid
  rw [Order.valid, Bool.and_eq_true, Bool.and_eq_true] at hv1
  obtain ⟨⟨hA, hB⟩, hC⟩ := hv1
  have hfind' : findOrderL ords oid = some o := hfind
  have hdrv' : findDriverL us d = some drv := hdrv
  have hoid : o.orderId = oid := orderId_of_findOrderL _ _ _ hfind'
  have hvacc :
      (({ o with assignmentAttempts := updatePendingAttempt d "accept" n o.assignmentAttempts
        }.updateStatus "accepted" (some d) n).releaseLock).valid = true := by
    have hall := updatePendingAttempt_respValid d "accept" n o.assignmentAttempts hC
    simp only [Order.valid, Order.updateStatus, Order.releaseLock]
    simp [validStatuses]
    exact ⟨by simpa using hB, by simpa using hall⟩
  rw [saveOrder, if_pos hvacc]
  simp only [setDriverAvailability]
  simp only [stDel_healthy, emit]
  obtain ⟨i, a, h1, h2, h3, h4⟩ := updatePendingAttempt_get d "accept" n o.assignmentAttempts hpend
  refine ⟨trivial, ⟨_, findOrderL_replace ords oid o _ hfind' hoid, rfl, rfl, rfl, rfl, rfl,
    ⟨i, a, h1, h2, h3, by simpa using h4⟩,
    findDriverL_updateAvail us d drv false hdrv',
    kvGet_kvDel_of_none _ _ _ (kvGet_kvDel_self kv _),
    kvGet_kvDel_self _ _⟩⟩



theorem markOrderAsFailed_noop (st : St) (oid reason : String) :
    markOrderAsFailed st oid reason = st := by
  rcases hf : findOrder st oid with _ | ox
  · rw [markOrderAsFailed, hf]
  · rw [markOrderAsFailed, hf]
    dsimp only
    rw [saveOrder, if_neg ?_]
    · simp [Order.valid, Order.updateStatus, Order.releaseLock, validStatuses]

/-- C6 amended: with consistent lock keys HandleResponse never fails for lack
of a matching attempt: it returns success for any response; when no pending
attempt of the driver exists the attempt history is left unchanged (but the
processing still runs), and when one exists the first such record is marked
accepted or declined with the response timestamp. -/
theorem responseMarksFirstPendingAttempt (sv : Service) (st : St) (oid d resp : String) (o : Order)
    (hsched : st.redis.sched = [])
    (hfind : findOrder st oid = some o)
    (hdl : kvGet st.redis.kv ("driver_lock:" ++ d) = some oid)
    (hol : kvGet st.redis.kv ("order_lock:" ++ oid) = some d)
    (hvalid : o.valid = true) :
    ∃ r st', handleDriverResponse sv st oid d resp = (.ok r, st') ∧ r.success = true ∧
      ∃ o', findOrder st' oid = some o' ∧
        ((∀ a ∈ o.assignmentAttempts, ¬(a.driverId = d ∧ a.response = "pending")) →
          o'.assignmentAttempts = o.assignmentAttempts) ∧
        ((∃ a ∈ o.assignmentAttempts, a.driverId = d ∧ a.response = "pending") →
          ∃ i a, o.assignmentAttempts.get? i = some a ∧ a.driverId = d ∧ a.response = "pending" ∧
            o'.assignmentAttempts.get? i =
              some { a with
                     response := if resp == "accept" then "accepted" else "declined",
                     respondedAt := some st.now }) := by
  obtain ⟨ords, us, ⟨kv, sched⟩, nt, tk, n⟩ := st
  dsimp only at hsched hfind hdl hol ⊢
  subst hsched
  have hv1 := hvalid
  rw [Order.valid, Bool.and_eq_true, Bool.and_eq_true] at hv1
  obtain ⟨⟨hA, hB⟩, hC⟩ := hv1
  have hfind' : findOrderL ords oid = some o := hfind
  have hoid : o.orderId = oid := orderId_of_findOrderL _ _ _ hfind'
  have hall := updatePendingAttempt_respValid d resp n o.assignmentAttempts hC
  simp only [handleDriverResponse, hfind, stGet_healthy, hdl, hol]
  rw [if_neg (by simp)]
  by_cases hresp : (resp == "accept") = true
  · rw [if_pos hresp]
    have hvacc :
        (({ o with assignmentAttempts := updatePendingAttempt d resp n o.assignmentAttempts
          }.updateStatus "accepted" (some d) n).releaseLock).valid = true := by
      simp only [Order.valid, Order.updateStatus, Order.releaseLock]
      simp [validStatuses]
      exact ⟨by simpa using hB, by simpa using hall⟩
    rw [saveOrder, if_pos hvacc]
    simp only [setDriverAvailability]
    simp only [stDel_healthy, emit]
    refine ⟨_, _, rfl, rfl, _, findOrderL_replace ords oid o _ hfind' hoid, ?_, ?_⟩
    · intro h
      exact updatePendingAttempt_of_none d resp n o.assignmentAttempts h
    · intro h
      exact updatePendingAttempt_get d resp n o.assignmentAttempts h
  · rw [if_neg hresp]
    have hvdec :
        (({ o with assignmentAttempts := updatePendingAttempt d resp n o.assignmentAttempts
          }.releaseLock)).valid = true := by
      simp only [Order.valid, Order.releaseLock]
      simp
      refine ⟨⟨by simpa using hA, by simpa using hB⟩, by simpa using hall⟩
    rw [saveOrder, if_pos hvdec]
    simp only [stDel_healthy]
    by_cases hcnt :
        (List.filter (fun a => a.response != "pending")
          ({ o with assignmentAttempts := updatePendingAttempt d resp n o.assignmentAttempts
           }.releaseLock).assignmentAttempts).length < 10
    · rw [if_pos hcnt]
      refine ⟨_, _, rfl, rfl, _, findOrderL_replace ords oid o _ hfind' hoid, ?_, ?_⟩
      · intro h
        exact updatePendingAttempt_of_none d resp n o.assignmentAttempts h
      · intro h
        exact updatePendingAttempt_get d resp n o.assignmentAttempts h
    · rw [if_neg hcnt]
      rw [markOrderAsFailed_noop]
      refine ⟨_, _, rfl, rfl, _, findOrderL_replace ords oid o _ hfind' hoid, ?_, ?_⟩
      · intro h
        exact updatePendingAttempt_of_none d resp n o.assignmentAttempts h
      · intro h
        exact updatePendingAttempt_get d resp n o.assignmentAttempts h


theorem stGet_fail (st : St) (k : String) (hfail : st.redis.sched.headD false = true) :
    stGet st k = (.error .storeUnavailable,
      { st with redis := { st.redis with sched := st.redis.sched.tail } }) := by
  simp only [stGet, redisGet, RedisState.step]
  rw [hfail]
  simp

theorem delThenRaise_fst (st : St) (k : String) (e : EngineErr) :
    (delThenRaise st k e).1 = .error e ∨ (delThenRaise st k e).1 = .error .storeUnavailable := by
  rcases h1 : stDel st k with ⟨r1, st1⟩
  rcases r1 with e1 | u1
  · rw [delThenRaise, h1]
    right
    rfl
  · rw [delThenRaise, h1]
    dsimp only
    rcases h2 : stDel st1 k with ⟨r2, st2⟩
    rcases r2 with e2 | u2
    · right
      rfl
    · left
      rfl

theorem delThenRaise_healthy (ords : List Order) (us : List Driver) (kv : List (String × String))
    (nt : List Notice) (tk : List Task) (n : ℚ) (k : String) (e : EngineErr) :
    delThenRaise ⟨ords, us, ⟨kv, []⟩, nt, tk, n⟩ k e =
      (.error e, ⟨ords, us, ⟨kvDel (kvDel kv k) k, []⟩, nt, tk, n⟩) := rfl

/-- C2 amended: Assign fails with the in-progress error exactly when the
transient order_assignment marker key is present; when that marker is absent
the call never produces the in-progress error, regardless of any order_lock
key left by an outstanding offer. -/
theorem alreadyInProgressIffMarker (sv : Service) (st : St) (oid : String) (o : Order)
    (hsched : st.redis.sched = [])
    (hfind : findOrder st oid = some o)
    (hstatus : o.status = "pending") :
    (∀ v, kvGet st.redis.kv ("order_assignment:" ++ oid) = some v →
      assignOrder sv st oid = (.error .assignmentInProgress, st)) ∧
    (kvGet st.redis.kv ("order_assignment:" ++ oid) = none →
      (assignOrder sv st oid).1 ≠ .error .assignmentInProgress) := by
  obtain ⟨ords, us, ⟨kv, sched⟩, nt, tk, n⟩ := st
  dsimp only at hsched hfind ⊢
  subst hsched
  constructor
  · intro v hv
    simp only [assignOrder, hfind, hstatus, stGet_healthy, hv]
    rw [if_neg (by simp)]
    rw [if_pos (by simp)]
  · intro hnone
    simp only [assignOrder, hfind, hstatus, stGet_healthy, hnone]
    rw [if_neg (by simp)]
    rw [if_neg (by simp)]
    simp only [stSetEx_healthy]
    by_cases hemp : (findNearbyDrivers sv ⟨ords, us, ⟨kvSet kv ("order_assignment:" ++ oid) "locked", []⟩, nt, tk, n⟩ o.pickupLocation 5).isEmpty = true
    · rw [if_pos hemp, delThenRaise_healthy]
      simp
    · rw [if_neg hemp]
      rcases htc : tryCandidates sv ⟨ords, us, ⟨kvSet kv ("order_assignment:" ++ oid) "locked", []⟩, nt, tk, n⟩ o
          ((findNearbyDrivers sv ⟨ords, us, ⟨kvSet kv ("order_assignment:" ++ oid) "locked", []⟩, nt, tk, n⟩ o.pickupLocation 5).take 5) with ⟨res, stq⟩
      rcases res with _ | r
      · rcases delThenRaise_fst stq ("order_assignment:" ++ oid) .noDriverAccepted with h | h <;>
          simp [h]
      · rcases hd : stDel stq ("order_assignment:" ++ oid) with ⟨rd, std⟩
        rcases rd with ed | ud
        · rcases hd2 : stDel std ("order_assignment:" ++ oid) with ⟨rd2, std2⟩
          simp [hd, hd2]
        · simp [hd]

/-- C5 amended: a store failure during the operations assignOrder performs
itself propagates as the store error, but a store failure inside
offerOrderToDriver is caught by its catch-all and converted into the generic
per-candidate failure result, letting the loop advance. -/
theorem storeFailureOfferConvertedAssignPropagates (sv : Service) (st : St) (o : Order)
    (c : Candidate) (oid : String)
    (hfail : st.redis.sched.headD false = true) :
    offerOrderToDriver sv st o c =
      (offerCaught, { st with redis := { st.redis with sched := st.redis.sched.tail } }) ∧
    (∀ o', findOrder st oid = some o' → o'.status = "pending" →
      (assignOrder sv st oid).1 = .error .storeUnavailable) := by
  constructor
  · rw [offerOrderToDriver, stGet_fail st _ hfail]
  · intro o' hfind hstatus
    rw [assignOrder, hfind]
    dsimp only
    rw [if_neg (by simp [hstatus])]
    rw [stGet_fail st _ hfail]


theorem offer_fail (sv : Service) (ords : List Order) (us : List Driver)
    (kv : List (String × String)) (nt : List Notice) (tk : List Task) (n : ℚ)
    (o : Order) (c : Candidate)
    (h : offerWouldSucceed ⟨ords, us, ⟨kv, []⟩, nt, tk, n⟩ o c = false) :
    ∃ r, offerOrderToDriver sv ⟨ords, us, ⟨kv, []⟩, nt, tk, n⟩ o c =
        (r, ⟨ords, us, ⟨kv, []⟩, nt, tk, n⟩) ∧ r.success = false := by
  rw [offerWouldSucceed, Bool.and_eq_false_iff] at h
  rcases hA : kvGet kv ("driver_lock:" ++ c.driver.id) with _ | x
  · -- driver lock absent, so the order lock check must have failed
    rcases h with h | h
    · rw [hA] at h
      simp at h
    · rcases hB : kvGet kv ("order_lock:" ++ o.orderId) with _ | v
      · rw [hB] at h
        simp at h
      · rw [hB] at h
        simp only at h
        refine ⟨{ success := false, reason := some "Order is locked by another driver",
                  driverId := none }, ?_, rfl⟩
        simp only [offerOrderToDriver, stGet_healthy, hA, hB]
        rw [if_neg (by simp)]
        rw [if_pos (by simp only [bne_iff_ne, ne_eq]; simpa using h)]
  · refine ⟨{ success := false, reason := some "Driver is busy with another order",
              driverId := none }, ?_, rfl⟩
    simp only [offerOrderToDriver, stGet_healthy, hA]
    rw [if_pos (by simp)]


theorem offer_succ (sv : Service) (ords : List Order) (us : List Driver)
    (kv : List (String × String)) (nt : List Notice) (tk : List Task) (n : ℚ)
    (o : Order) (c : Candidate)
    (hvalid : o.valid = true)
    (h : offerWouldSucceed ⟨ords, us, ⟨kv, []⟩, nt, tk, n⟩ o c = true) :
    offerOrderToDriver sv ⟨ords, us, ⟨kv, []⟩, nt, tk, n⟩ o c =
      ({ success := true, reason := none, driverId := some c.driver.id },
       ⟨replaceOrder (replaceOrder ords (o.lockForDriver c.driver.id (300 / 60) n))
          { o.lockForDriver c.driver.id (300 / 60) n with
            assignmentAttempts := (o.lockForDriver c.driver.id (300 / 60) n).assignmentAttempts ++
              [{ driverId := c.driver.id, attemptedAt := n, response := "pending", respondedAt := none }] },
        us,
        ⟨kvSet (kvSet kv ("driver_lock:" ++ c.driver.id) o.orderId) ("order_lock:" ++ o.orderId) c.driver.id, []⟩,
        nt ++ [.newOrderOffer c.driver.id o.orderId], tk, n⟩) := by
  rw [offerWouldSucceed, Bool.and_eq_true] at h
  obtain ⟨hA, hB⟩ := h
  rw [Option.isNone_iff_eq_none] at hA
  have hv1 := hvalid
  rw [Order.valid, Bool.and_eq_true, Bool.and_eq_true] at hv1
  obtain ⟨⟨hS, hP⟩, hC⟩ := hv1
  have hv1 : (o.lockForDriver c.driver.id (300 / 60) n).valid = true := by
    simp only [Order.valid, Order.lockForDriver]
    simp
    exact ⟨⟨by simpa using hS, by simpa using hP⟩, by simpa using hC⟩
  have hv2 : ({ o.lockForDriver c.driver.id (300 / 60) n with
      assignmentAttempts := (o.lockForDriver c.driver.id (300 / 60) n).assignmentAttempts ++
        [{ driverId := c.driver.id, attemptedAt := n, response := "pending",
           respondedAt := none : AttemptRec }] }).valid = true := by
    simp only [Order.valid, Order.lockForDriver]
    simp [validResponses]
    exact ⟨⟨by simpa using hS, by simpa using hP⟩, by simpa [validResponses] using hC⟩
  simp only [offerOrderToDriver, stGet_healthy, hA]
  rw [if_neg (by simp)]
  rcases hBv : kvGet kv ("order_lock:" ++ o.orderId) with _ | v
  · rw [if_neg (by simp)]
    simp only [stSetEx_healthy]
    rw [saveOrder, if_pos hv1]
    dsimp only
    rw [saveOrder, if_pos hv2]
    rfl
  · rw [hBv] at hB
    simp only at hB
    have hveq : v = c.driver.id := by simpa using hB
    rw [if_neg (by simp [hveq])]
    simp only [stSetEx_healthy]
    rw [saveOrder, if_pos hv1]
    dsimp only
    rw [saveOrder, if_pos hv2]
    rfl


theorem tryCandidates_all_fail (sv : Service) (o : Order) (ords : List Order) (us : List Driver)
    (kv : List (String × String)) (nt : List Notice) (tk : List Task) (n : ℚ)
    (cs : List Candidate)
    (h : ∀ c ∈ cs, offerWouldSucceed ⟨ords, us, ⟨kv, []⟩, nt, tk, n⟩ o c = false) :
    tryCandidates sv ⟨ords, us, ⟨kv, []⟩, nt, tk, n⟩ o cs =
      (none, ⟨ords, us, ⟨kv, []⟩, nt, tk, n⟩) := by
  induction cs with
  | nil => rfl
  | cons c cs ih =>
    obtain ⟨r, hr, hsucc⟩ := offer_fail sv ords us kv nt tk n o c (h c (by simp))
    rw [tryCandidates, hr]
    dsimp only
    rw [if_neg (by simp [hsucc])]
    exact ih (fun x hx => h x (by simp [hx]))

theorem tryCandidates_exists (sv : Service) (o : Order) (ords : List Order) (us : List Driver)
    (kv : List (String × String)) (nt : List Notice) (tk : List Task) (n : ℚ)
    (hvalid : o.valid = true) (cs : List Candidate)
    (h : ∃ c ∈ cs, offerWouldSucceed ⟨ords, us, ⟨kv, []⟩, nt, tk, n⟩ o c = true) :
    ∃ r stq, tryCandidates sv ⟨ords, us, ⟨kv, []⟩, nt, tk, n⟩ o cs = (some r, stq) ∧
      r.success = true ∧ stq.redis.sched = [] := by
  induction cs with
  | nil => simp at h
  | cons c cs ih =>
    by_cases hc : offerWouldSucceed ⟨ords, us, ⟨kv, []⟩, nt, tk, n⟩ o c = true
    · rw [tryCandidates, offer_succ sv ords us kv nt tk n o c hvalid hc]
      dsimp only
      rw [if_pos rfl]
      exact ⟨_, _, rfl, rfl, rfl⟩
    · have hc' := Bool.eq_false_iff.mpr hc
      obtain ⟨r, hr, hrs⟩ := offer_fail sv ords us kv nt tk n o c hc'
      rw [tryCandidates, hr]
      dsimp only
      rw [if_neg (by simp [hrs])]
      apply ih
      rcases h with ⟨x, hx, hxs⟩
      rcases List.mem_cons.mp hx with rfl | hxtail
      · exact absurd hxs hc
      · exact ⟨x, hxtail, hxs⟩

theorem tryCandidates_first (sv : Service) (o : Order) (ords : List Order) (us : List Driver)
    (kv : List (String × String)) (nt : List Notice) (tk : List Task) (n : ℚ)
    (hvalid : o.valid = true) :
    ∀ (cs : List Candidate) (i : ℕ) (hi : i < cs.length),
    offerWouldSucceed ⟨ords, us, ⟨kv, []⟩, nt, tk, n⟩ o (cs.get ⟨i, hi⟩) = true →
    (∀ j (hj : j < i), offerWouldSucceed ⟨ords, us, ⟨kv, []⟩, nt, tk, n⟩ o
        (cs.get ⟨j, Nat.lt_trans hj hi⟩) = false) →
    ∃ stq, tryCandidates sv ⟨ords, us, ⟨kv, []⟩, nt, tk, n⟩ o cs =
      (some { success := true, reason := none, driverId := some (cs.get ⟨i, hi⟩).driver.id },
        stq) ∧ stq.redis.sched = []
  | [], i, hi, _, _ => absurd hi (by simp)
  | c :: cs, 0, hi, hsucc, _ => by
    rw [tryCandidates, offer_succ sv ords us kv nt tk n o c hvalid hsucc]
    dsimp only
    rw [if_pos rfl]
    exact ⟨_, rfl, rfl⟩
  | c :: cs, i + 1, hi, hsucc, hprev => by
    have hc0 : offerWouldSucceed ⟨ords, us, ⟨kv, []⟩, nt, tk, n⟩ o c = false :=
      hprev 0 (Nat.succ_pos i)
    obtain ⟨r, hr, hrs⟩ := offer_fail sv ords us kv nt tk n o c hc0
    rw [tryCandidates, hr]
    dsimp only
    rw [if_neg (by simp [hrs])]
    have hi' : i < cs.length := Nat.lt_of_succ_lt_succ (by simpa using hi)
    obtain ⟨stq, htq, hq⟩ := tryCandidates_first sv o ords us kv nt tk n hvalid cs i hi'
      (by exact hsucc) (fun j hj => by exact hprev (j + 1) (Nat.succ_lt_succ hj))
    exact ⟨stq, htq, hq⟩


/-- C7: Assign queries drivers with the default radius 5, the candidate list
is sorted ascending by distance to pickup and restricted to at most the 5
nearest active available drivers within the radius, offers are placed
strictly sequentially in that order, the call succeeds exactly when some
candidate among the top 5 is unlocked, and the returned driver is the first
candidate in nearest-first order whose offer is placed. -/
theorem assignTop5NearestSequential (sv : Service) (st : St) (oid : String) (o : Order)
    (hsched : st.redis.sched = [])
    (hfind : findOrder st oid = some o)
    (hstatus : o.status = "pending")
    (hmarker : kvGet st.redis.kv ("order_assignment:" ++ oid) = none)
    (hvalid : o.valid = true) :
    List.Sorted candLE (findNearbyDrivers sv st o.pickupLocation 5) ∧
    ((findNearbyDrivers sv st o.pickupLocation 5).take 5).length ≤ 5 ∧
    (∀ c ∈ findNearbyDrivers sv st o.pickupLocation 5,
      c.driver.isActive = true ∧ c.driver.isAvailable = true ∧
      sv.dist o.pickupLocation c.driver.location ≤ 5 ∧
      c.distanceToPickup = sv.dist o.pickupLocation c.driver.location) ∧
    ((assignOrder sv st oid).1.isOk = true ↔
      ∃ c ∈ (findNearbyDrivers sv st o.pickupLocation 5).take 5,
        offerWouldSucceed (withMarker st oid) o c = true) ∧
    (∀ i (hi : i < ((findNearbyDrivers sv st o.pickupLocation 5).take 5).length),
      offerWouldSucceed (withMarker st oid) o
        (((findNearbyDrivers sv st o.pickupLocation 5).take 5).get ⟨i, hi⟩) = true →
      (∀ j (hj : j < i), offerWouldSucceed (withMarker st oid) o
        (((findNearbyDrivers sv st o.pickupLocation 5).take 5).get ⟨j, Nat.lt_trans hj hi⟩) = false) →
      (assignOrder sv st oid).1 = .ok
        { success := true, reason := none,
          driverId := some ((((findNearbyDrivers sv st o.pickupLocation 5).take 5).get ⟨i, hi⟩)).driver.id }) := by
  obtain ⟨ords, us, ⟨kv, sched⟩, nt, tk, n⟩ := st
  dsimp only at hsched hfind hmarker ⊢
  subst hsched
  refine ⟨?_, List.length_take_le 5 _, ?_, ?_, ?_⟩
  · simp only [findNearbyDrivers]
    exact List.sorted_insertionSort candLE _
  · intro c hc
    simp only [findNearbyDrivers] at hc
    rw [List.mem_insertionSort] at hc
    obtain ⟨dr, hdr, rfl⟩ := List.mem_map.mp hc
    obtain ⟨hdus, hpred⟩ := List.mem_filter.mp hdr
    rw [Bool.and_eq_true, Bool.and_eq_true] at hpred
    obtain ⟨⟨hact, havail⟩, hdist⟩ := hpred
    exact ⟨hact, havail, of_decide_eq_true hdist, rfl⟩
  · constructor
    · intro hok
      by_cases hemp : (findNearbyDrivers sv
          ⟨ords, us, ⟨kvSet kv ("order_assignment:" ++ oid) "locked", []⟩, nt, tk, n⟩
          o.pickupLocation 5).isEmpty = true
      · exfalso
        rw [assignOrder, hfind] at hok
        simp only at hok
        rw [if_neg (by simp [hstatus]), stGet_healthy] at hok
        simp only [hmarker] at hok
        rw [if_neg (by simp)] at hok
        simp only [stSetEx_healthy] at hok
        rw [if_pos hemp, delThenRaise_healthy] at hok
        exact Bool.false_ne_true hok
      · by_cases hex : ∃ c ∈ (findNearbyDrivers sv
            ⟨ords, us, ⟨kv, []⟩, nt, tk, n⟩ o.pickupLocation 5).take 5,
            offerWouldSucceed (withMarker ⟨ords, us, ⟨kv, []⟩, nt, tk, n⟩ oid) o c = true
        · exact hex
        · exfalso
          have hall : ∀ c ∈ (findNearbyDrivers sv
              ⟨ords, us, ⟨kvSet kv ("order_assignment:" ++ oid) "locked", []⟩, nt, tk, n⟩
              o.pickupLocation 5).take 5,
              offerWouldSucceed ⟨ords, us, ⟨kvSet kv ("order_assignment:" ++ oid) "locked", []⟩,
                nt, tk, n⟩ o c = false := by
            intro c hc
            refine Bool.eq_false_iff.mpr (fun ht => hex ⟨c, hc, ht⟩)
          rw [assignOrder, hfind] at hok
          simp only at hok
          rw [if_neg (by simp [hstatus]), stGet_healthy] at hok
          simp only [hmarker] at hok
          rw [if_neg (by simp)] at hok
          simp only [stSetEx_healthy] at hok
          rw [if_neg hemp] at hok
          rw [tryCandidates_all_fail sv o ords us _ nt tk n _ hall] at hok
          dsimp only at hok
          rw [delThenRaise_healthy] at hok
          exact Bool.false_ne_true hok
    · intro hex
      have hfn : findNearbyDrivers sv
          ⟨ords, us, ⟨kvSet kv ("order_assignment:" ++ oid) "locked", []⟩, nt, tk, n⟩
          o.pickupLocation 5 =
          findNearbyDrivers sv ⟨ords, us, ⟨kv, []⟩, nt, tk, n⟩ o.pickupLocation 5 := rfl
      have hemp : (findNearbyDrivers sv
          ⟨ords, us, ⟨kvSet kv ("order_assignment:" ++ oid) "locked", []⟩, nt, tk, n⟩
          o.pickupLocation 5).isEmpty = false := by
        rw [hfn]
        rcases hex with ⟨c, hc, _⟩
        cases hL : findNearbyDrivers sv ⟨ords, us, ⟨kv, []⟩, nt, tk, n⟩ o.pickupLocation 5 with
        | nil =>
          rw [hL] at hc
          simp at hc
        | cons a as => rfl
      rw [assignOrder, hfind]
      dsimp only
      rw [if_neg (by simp [hstatus]), stGet_healthy]
      simp only [hmarker]
      rw [if_neg (by simp)]
      simp only [stSetEx_healthy]
      rw [if_neg (by simp [hemp])]
      rw [hfn]
      obtain ⟨r, stq, htq, hrs, hq⟩ := tryCandidates_exists sv o ords us
        (kvSet kv ("order_assignment:" ++ oid) "locked") nt tk n hvalid
        ((findNearbyDrivers sv ⟨ords, us, ⟨kv, []⟩, nt, tk, n⟩ o.pickupLocation 5).take 5)
        (by exact hex)
      rw [htq]
      dsimp only
      obtain ⟨ordsq, usq, ⟨kvq, schedq⟩, ntq, tkq, nq⟩ := stq
      dsimp only at hq
      subst hq
      rw [stDel_healthy]
      rfl
  · intro i hi hsucc hprev
    have hfn : findNearbyDrivers sv
        ⟨ords, us, ⟨kvSet kv ("order_assignment:" ++ oid) "locked", []⟩, nt, tk, n⟩
        o.pickupLocation 5 =
        findNearbyDrivers sv ⟨ords, us, ⟨kv, []⟩, nt, tk, n⟩ o.pickupLocation 5 := rfl
    have hemp : (findNearbyDrivers sv
        ⟨ords, us, ⟨kvSet kv ("order_assignment:" ++ oid) "locked", []⟩, nt, tk, n⟩
        o.pickupLocation 5).isEmpty = false := by
      rw [hfn]
      cases hL : findNearbyDrivers sv ⟨ords, us, ⟨kv, []⟩, nt, tk, n⟩ o.pickupLocation 5 with
      | nil =>
        rw [hL] at hi
        simp at hi
      | cons a as => rfl
    rw [assignOrder, hfind]
    dsimp only
    rw [if_neg (by simp [hstatus]), stGet_healthy]
    simp only [hmarker]
    rw [if_neg (by simp)]
    simp only [stSetEx_healthy]
    rw [if_neg (by simp [hemp])]
    rw [hfn]
    obtain ⟨stq, htq, hq⟩ := tryCandidates_first sv o ords us
      (kvSet kv ("order_assignment:" ++ oid) "locked") nt tk n hvalid
      ((findNearbyDrivers sv ⟨ords, us, ⟨kv, []⟩, nt, tk, n⟩ o.pickupLocation 5).take 5)
      i hi (by exact hsucc) (by exact hprev)
    rw [htq]
    dsimp only
    obtain ⟨ordsq, usq, ⟨kvq, schedq⟩, ntq, tkq, nq⟩ := stq
    dsimp only at hq
    subst hq
    rw [stDel_healthy]


theorem haversineMeters_comm (p q : GeoPoint) : haversineMeters p q = haversineMeters q p := by
  simp only [haversineMeters, toRad]
  have h1 : (p.latitude - q.latitude) * (Real.pi / 180) / 2 =
      -((q.latitude - p.latitude) * (Real.pi / 180) / 2) := by ring
  have h2 : (p.longitude - q.longitude) * (Real.pi / 180) / 2 =
      -((q.longitude - p.longitude) * (Real.pi / 180) / 2) := by ring
  rw [h1, h2, Real.sin_neg, Real.sin_neg]
  ring_nf

theorem haversineMeters_self (p : GeoPoint) : haversineMeters p p = 0 := by
  simp only [haversineMeters, toRad]
  simp

theorem round2_zero : round2 0 = 0 := by
  rw [round2, jsRoundR]
  norm_num

/-- C9: the distance function is symmetric and zero on the diagonal for all
valid coordinates. -/
theorem distanceSymmZero :
    (∀ a b : GeoPoint, a.validCoord → b.validCoord →
      calculateDistance (some a) (some b) = calculateDistance (some b) (some a)) ∧
    (∀ a : GeoPoint, a.validCoord → calculateDistance (some a) (some a) = 0) := by
  constructor
  · intro a b _ _
    simp only [calculateDistance, getDistance]
    rw [haversineMeters_comm]
  · intro a _
    simp only [calculateDistance, getDistance]
    rw [haversineMeters_self]
    norm_num
    exact round2_zero

/-- C10: calculateDistance is total: on well-formed inputs it returns the
great-circle distance in kilometers rounded to two decimals, on a malformed
input the caught error yields 0, which coincides with the genuine zero
distance of identical points. -/
theorem distanceTotalErrorZero :
    (∀ p q : GeoPoint, calculateDistance (some p) (some q) = round2 (haversineMeters p q / 1000)) ∧
    (∀ p q : Option GeoPoint, (p = none ∨ q = none) → calculateDistance p q = 0) ∧
    (∀ p : GeoPoint, calculateDistance (some p) (some p) = 0) := by
  refine ⟨fun p q => rfl, ?_, ?_⟩
  · intro p q h
    rcases p with _ | x
    · rcases q with _ | y <;> rfl
    · rcases q with _ | y
      · rfl
      · rcases h with h | h <;> simp at h
  · intro p
    simp only [calculateDistance, getDistance]
    rw [haversineMeters_self]
    norm_num
    exact round2_zero

/-- Witness for acceptResponseFinalizes: driver D1 accepts order O7. -/
theorem acceptResponseFinalizes_witness :
    order7.valid = true ∧
    ((handleDriverResponse sv0 st7 "O7" "D1" "accept").1 =
      .ok ⟨true, "Order accepted successfully", some "O7"⟩ ∧
    ∃ o', findOrder (handleDriverResponse sv0 st7 "O7" "D1" "accept").2 "O7" = some o' ∧
      o'.status = "accepted" ∧ o'.driver = some "D1" ∧
      o'.isLocked = false ∧ o'.lockedBy = none ∧ o'.lockExpiration = none ∧
      (∃ i a, order7.assignmentAttempts.get? i = some a ∧ a.driverId = "D1" ∧
        a.response = "pending" ∧
        o'.assignmentAttempts.get? i =
          some { a with response := "accepted", respondedAt := some st7.now }) ∧
      findDriver (handleDriverResponse sv0 st7 "O7" "D1" "accept").2 "D1" =
        some { drv1 with isAvailable := false } ∧
      kvGet (handleDriverResponse sv0 st7 "O7" "D1" "accept").2.redis.kv ("driver_lock:" ++ "D1") = none ∧
      kvGet (handleDriverResponse sv0 st7 "O7" "D1" "accept").2.redis.kv ("order_lock:" ++ "O7") = none) :=
  ⟨by decide, acceptResponseFinalizes sv0 st7 "O7" "D1" order7 drv1 rfl (by decide)
    (by decide) (by decide) (by decide) (by decide) (by decide)⟩

/-- Witness for alreadyInProgressIffMarker: the marker key is present in st9. -/
theorem alreadyInProgressIffMarker_witness :
    kvGet st9.redis.kv "order_assignment:O1" = some "locked" ∧
    ((∀ v, kvGet st9.redis.kv ("order_assignment:" ++ "O1") = some v →
      assignOrder sv0 st9 "O1" = (.error .assignmentInProgress, st9)) ∧
    (kvGet st9.redis.kv ("order_assignment:" ++ "O1") = none →
      (assignOrder sv0 st9 "O1").1 ≠ .error .assignmentInProgress)) :=
  ⟨by decide, alreadyInProgressIffMarker sv0 st9 "O1" order2 rfl (by decide) (by decide)⟩

/-- Witness for storeFailureOfferConvertedAssignPropagates: the next store
operation of st10 fails. -/
theorem storeFailureOfferConvertedAssignPropagates_witness :
    st10.redis.sched.headD false = true ∧
    (offerOrderToDriver sv0 st10 order2 cand1 =
      (offerCaught, { st10 with redis := { st10.redis with sched := st10.redis.sched.tail } }) ∧
    (∀ o', findOrder st10 "O1" = some o' → o'.status = "pending" →
      (assignOrder sv0 st10 "O1").1 = .error .storeUnavailable)) :=
  ⟨by decide, storeFailureOfferConvertedAssignPropagates sv0 st10 order2 cand1 "O1" (by decide)⟩

/-- Witness for responseMarksFirstPendingAttempt: D1 accepts order O7, whose
pending attempt record is marked accepted. -/
theorem responseMarksFirstPendingAttempt_witness :
    order7.valid = true ∧
    (∃ r st', handleDriverResponse sv0 st7 "O7" "D1" "accept" = (.ok r, st') ∧ r.success = true ∧
      ∃ o', findOrder st' "O7" = some o' ∧
        ((∀ a ∈ order7.assignmentAttempts, ¬(a.driverId = "D1" ∧ a.response = "pending")) →
          o'.assignmentAttempts = order7.assignmentAttempts) ∧
        ((∃ a ∈ order7.assignmentAttempts, a.driverId = "D1" ∧ a.response = "pending") →
          ∃ i a, order7.assignmentAttempts.get? i = some a ∧ a.driverId = "D1" ∧
            a.response = "pending" ∧
            o'.assignmentAttempts.get? i =
              some { a with
                     response := if "accept" == "accept" then "accepted" else "declined",
                     respondedAt := some st7.now })) :=
  ⟨by decide, responseMarksFirstPendingAttempt sv0 st7 "O7" "D1" "accept" order7 rfl
    (by decide) (by decide) (by decide) (by decide)⟩

/-- Witness for assignTop5NearestSequential: the healthy state st8 with one
available driver. -/
theorem assignTop5NearestSequential_witness :
    order2.valid = true ∧
    (List.Sorted candLE (findNearbyDrivers sv0 st8 order2.pickupLocation 5) ∧
    ((findNearbyDrivers sv0 st8 order2.pickupLocation 5).take 5).length ≤ 5 ∧
    (∀ c ∈ findNearbyDrivers sv0 st8 order2.pickupLocation 5,
      c.driver.isActive = true ∧ c.driver.isAvailable = true ∧
      sv0.dist order2.pickupLocation c.driver.location ≤ 5 ∧
      c.distanceToPickup = sv0.dist order2.pickupLocation c.driver.location) ∧
    ((assignOrder sv0 st8 "O1").1.isOk = true ↔
      ∃ c ∈ (findNearbyDrivers sv0 st8 order2.pickupLocation 5).take 5,
        offerWouldSucceed (withMarker st8 "O1") order2 c = true) ∧
    (∀ i (hi : i < ((findNearbyDrivers sv0 st8 order2.pickupLocation 5).take 5).length),
      offerWouldSucceed (withMarker st8 "O1") order2
        (((findNearbyDrivers sv0 st8 order2.pickupLocation 5).take 5).get ⟨i, hi⟩) = true →
      (∀ j (hj : j < i), offerWouldSucceed (withMarker st8 "O1") order2
        (((findNearbyDrivers sv0 st8 order2.pickupLocation 5).take 5).get ⟨j, Nat.lt_trans hj hi⟩) = false) →
      (assignOrder sv0 st8 "O1").1 = .ok
        { success := true, reason := none,
          driverId := some ((((findNearbyDrivers sv0 st8 order2.pickupLocation 5).take 5).get ⟨i, hi⟩)).driver.id })) :=
  ⟨by decide, assignTop5NearestSequential sv0 st8 "O1" order2 rfl (by decide) (by decide)
    (by decide) (by decide)⟩

/-- Witness for distanceSymmZero at two concrete valid coordinates. -/
theorem distanceSymmZero_witness :
    (⟨48.8566, 2.3522⟩ : GeoPoint).validCoord ∧
    calculateDistance (some ⟨48.8566, 2.3522⟩) (some ⟨41.9028, 12.4964⟩) =
      calculateDistance (some ⟨41.9028, 12.4964⟩) (some ⟨48.8566, 2.3522⟩) ∧
    calculateDistance (some (⟨48.8566, 2.3522⟩ : GeoPoint)) (some ⟨48.8566, 2.3522⟩) = 0 :=
  ⟨by norm_num [GeoPoint.validCoord],
   distanceSymmZero.1 ⟨48.8566, 2.3522⟩ ⟨41.9028, 12.4964⟩
     (by norm_num [GeoPoint.validCoord]) (by norm_num [GeoPoint.validCoord]),
   distanceSymmZero.2 ⟨48.8566, 2.3522⟩ (by norm_num [GeoPoint.validCoord])⟩

/-- Witness for distanceTotalErrorZero: a malformed input returns 0, the same
value as the distance of a point to itself. -/
theorem distanceTotalErrorZero_witness :
    calculateDistance none none = 0 ∧
    calculateDistance (some (⟨0, 0⟩ : GeoPoint)) (some ⟨0, 0⟩) = 0 :=
  ⟨distanceTotalErrorZero.2.1 none none (Or.inl rfl),
   distanceTotalErrorZero.2.2 ⟨0, 0⟩⟩

end RideSharing
